import Mathlib

/-!
Verification development for the dlt_logger / tp_logger structured-logging
repository.  Each Python component named in the claims is shallowly embedded
as an executable Lean definition; failure injection (which connection attempt
raises, whether a library call raises) is passed in explicitly so that the
control flow of the Python source is reproduced exactly.
-/

set_option linter.all false

namespace DltLogger

/-! ## Connection Manager (tp_logger/core.py, get_db_connection)

The Python loop is `for attempt in range(max_retries)`: each iteration calls
`duckdb.connect`; on an exception whose text contains "lock" while
`attempt < max_retries - 1` it prints a diagnostic, sleeps `2 ** attempt`
seconds and retries; on any other exception, or on a lock error at the last
attempt, it sets the connection to None and stops.  We model the outcome of
each physical open attempt by a function `Nat → ConnAttempt`. -/

/-- Outcome of one `duckdb.connect` call: success, an exception whose message
contains "lock", or an exception of any other kind. -/
inductive ConnAttempt where
  | success
  | locked
  | otherFail
deriving DecidableEq

/-- Result of `get_db_connection`: the connection (`some i` = handle obtained on
attempt `i`, `none` = unavailable), the total seconds slept, and the list of
backoff delays announced by the "retrying in {wait_time}s" diagnostics. -/
structure ConnState where
  conn : Option Nat
  waited : Nat
  diags : List Nat
deriving DecidableEq

/-- The retry loop of `get_db_connection`, fuel = remaining iterations of
`range(max_retries)`. -/
def connectFrom (attempts : Nat → ConnAttempt) (maxRetries : Nat) :
    Nat → Nat → Nat → List Nat → ConnState
  | 0, _, waited, diags => ⟨none, waited, diags.reverse⟩
  | fuel + 1, attempt, waited, diags =>
    match attempts attempt with
    | .success => ⟨some attempt, waited, diags.reverse⟩
    | .locked =>
      if attempt < maxRetries - 1 then
        connectFrom attempts maxRetries fuel (attempt + 1)
          (waited + 2 ^ attempt) (2 ^ attempt :: diags)
      else ⟨none, waited, diags.reverse⟩
    | .otherFail => ⟨none, waited, diags.reverse⟩

/-- Default of the `max_retries` parameter of `get_db_connection`. -/
def defaultMaxRetries : Nat := 3

/-- Model of `get_db_connection(max_retries)` when no connection is cached yet. -/
def get_db_connection (attempts : Nat → ConnAttempt) (maxRetries : Nat) : ConnState :=
  connectFrom attempts maxRetries maxRetries 0 0 []

/-- Model of `TPLogger._log_to_db` (tp_logger/core.py): returns immediately when
`self.connection` is falsy; otherwise runs the INSERT inside
`try/except Exception`, printing "Database logging failed" on error.  The
returned list is what was printed; no exception ever escapes, which the
`Except`-free result type records.  `insertRaises` injects whether the INSERT
raises. -/
def logToDb (conn : Option Nat) (insertRaises : Bool) : List String :=
  match conn with
  | none => []
  | some _ => if insertRaises then ["Database logging failed"] else []

/-! ## Configuration (tp_logger/config.py and dlt_logger/setup/config.py)

Both modules keep a module-global `_config : Optional[LoggerConfig]`; we pass
that global in explicitly.  `tp_logger.get_config` lazily builds a defaulted
`LoggerConfig()`; `dlt_logger.get_config` raises `ValueError` when the global
is still `None`. -/

/-- Fields of `tp_logger.config.LoggerConfig` relevant to the claims. -/
structure TpLoggerConfig where
  project_name : String
  db_path : String
  log_level : String
  console_logging : Bool
  pipeline_name : String
deriving DecidableEq

/-- Value of `LoggerConfig()` built from the keyword defaults of its `__init__`
(tp_logger/config.py). -/
def defaultTpLoggerConfig : TpLoggerConfig :=
  { project_name := "tp_logger_app"
    db_path := "./logs/app.duckdb"
    log_level := "INFO"
    console_logging := true
    pipeline_name := "tp_logger_pipeline" }

/-- Model of `tp_logger.config.get_config`: returns the global config, creating the
defaulted one first when it is still `None`.  Result: the returned config and
the new value of the global. -/
def tpGetConfig (state : Option TpLoggerConfig) :
    TpLoggerConfig × Option TpLoggerConfig :=
  match state with
  | some c => (c, some c)
  | none => (defaultTpLoggerConfig, some defaultTpLoggerConfig)

/-- Fields of `dlt_logger.setup.config.LoggerConfig` relevant to the claims.
The three Athena coordinates are `Optional[str]` in the source; Python
truthiness treats both `None` and `""` as missing. -/
structure DltLoggerConfig where
  project_name : String
  log_level : String
  pipeline_name : String
  dataset_name : String
  table_name : String
  db_path : String
  console_logging : Bool
  athena_destination : Bool
  aws_region : Option String
  athena_database : Option String
  athena_s3_staging_bucket : Option String
deriving DecidableEq

/-- Python truthiness of an `Optional[str]` value: `None` and `""` are falsy. -/
def truthyOptStr : Option String → Bool
  | none => false
  | some s => !(s == "")

/-- The `ValueError` message of `dlt_logger.setup.config.get_config` when no
configuration has been set. -/
def dltConfigNotInitializedMsg : String :=
  "Logger configuration not initialized. Please call setup_logging() first with required parameters: project_name, log_level, pipeline_name, dataset_name, table_name"

/-- Model of `dlt_logger.setup.config.get_config`: raises `ValueError` while the global
`_config` is `None`, otherwise returns it unchanged (no lazy default). -/
def dltGetConfig (state : Option DltLoggerConfig) : Except String DltLoggerConfig :=
  match state with
  | none => .error dltConfigNotInitializedMsg
  | some c => .ok c

/-! ## Storage Pipeline singleton (dlt_logger/dlt/pipeline.py, get_pipeline)

`get_pipeline` returns the cached `_pipeline` when present; otherwise it calls
`get_config()`, tries `dlt.pipeline(...)` and — unlike every sink-side write —
RE-RAISES on failure (`except Exception as e: print(...); raise`).  Pipeline
handles are modelled as `Nat` ids; `createFails` injects whether
`dlt.pipeline(...)` raises. -/

/-- Model of `dlt_logger.dlt.pipeline.get_pipeline`.  Result: the handle plus the new
cached global, or the escaping exception. -/
def dltGetPipeline (state : Option DltLoggerConfig) (cached : Option Nat)
    (createFails : Bool) : Except String (Nat × Option Nat) :=
  match cached with
  | some p =>
    match dltGetConfig state with
    | .error e => .error e
    | .ok _ => .ok (p, some p)
  | none =>
    match dltGetConfig state with
    | .error e => .error e
    | .ok _ =>
      if createFails then .error "Failed to create pipeline"
      else .ok (0, some 0)

/-- Model of `TPLogger.__init__` (dlt_logger variant, logging/logger.py): reads the
global config, then the pipeline singleton; both can raise, and neither raise
is caught. -/
def dltTPLoggerInit (state : Option DltLoggerConfig) (cached : Option Nat)
    (createFails : Bool) : Except String (DltLoggerConfig × Nat) :=
  match dltGetConfig state with
  | .error e => .error e
  | .ok cfg =>
    match dltGetPipeline state cached createFails with
    | .error e => .error e
    | .ok (p, _) => .ok (cfg, p)

/-! ## JSON values and `json.loads`

`LogEntry.validate_context` (tp_logger/models.py) calls `json.loads` on string
input.  We embed JSON values as an inductive and `json.loads` as an executable
recursive-descent parser over the character list, with a fuel argument bounded
by the input length.  Numbers carry their integer part plus the raw
fraction/exponent lexeme (no arithmetic is ever performed on them in the
logging code); the default acceptance of `NaN`/`Infinity` by `json.loads` is
modelled by the dedicated constructors.  Objects are association lists in
source order. -/

/-- A decoded JSON value (a Python object returned by `json.loads`). -/
inductive Json where
  | null
  | bool (b : Bool)
  | num (intPart : Int) (moreLexeme : String)
  | nan
  | inf (neg : Bool)
  | str (s : String)
  | arr (elems : List Json)
  | obj (fields : List (String × Json))

/-- JSON insignificant whitespace. -/
def isWs (c : Char) : Bool :=
  c = ' ' || c = '\t' || c = '\n' || c = '\r'

/-- Drop leading JSON whitespace. -/
def skipWs : List Char → List Char
  | [] => []
  | c :: cs => if isWs c then skipWs cs else c :: cs

/-- The `{` character (written via its code point). -/
def lbrace : Char := Char.ofNat 123

/-- The `}` character (written via its code point). -/
def rbrace : Char := Char.ofNat 125

/-- Hexadecimal digit test for `\u` escapes. -/
def isHexDigitChar (c : Char) : Bool :=
  c.isDigit || ('a' ≤ c && c ≤ 'f') || ('A' ≤ c && c ≤ 'F')

/-- Value of a hexadecimal digit. -/
def hexVal (c : Char) : Nat :=
  if c.isDigit then c.toNat - 48
  else if 'a' ≤ c && c ≤ 'f' then c.toNat - 97 + 10
  else c.toNat - 65 + 10

/-- Parse the body of a JSON string after the opening quote, handling the
standard escapes; raw control characters are rejected (json.loads strict
mode).  Returns the decoded string and the input after the closing quote. -/
def parseStringBody : Nat → List Char → List Char → Option (String × List Char)
  | 0, _, _ => none
  | fuel + 1, acc, cs =>
    match cs with
    | [] => none
    | c :: rest =>
      if c = '"' then some (String.mk acc.reverse, rest)
      else if c = '\\' then
        match rest with
        | [] => none
        | e :: rest2 =>
          if e = '"' then parseStringBody fuel ('"' :: acc) rest2
          else if e = '\\' then parseStringBody fuel ('\\' :: acc) rest2
          else if e = '/' then parseStringBody fuel ('/' :: acc) rest2
          else if e = 'b' then parseStringBody fuel (Char.ofNat 8 :: acc) rest2
          else if e = 'f' then parseStringBody fuel (Char.ofNat 12 :: acc) rest2
          else if e = 'n' then parseStringBody fuel ('\n' :: acc) rest2
          else if e = 'r' then parseStringBody fuel (Char.ofNat 13 :: acc) rest2
          else if e = 't' then parseStringBody fuel ('\t' :: acc) rest2
          else if e = 'u' then
            match rest2 with
            | h1 :: h2 :: h3 :: h4 :: rest3 =>
              if isHexDigitChar h1 && isHexDigitChar h2 &&
                  isHexDigitChar h3 && isHexDigitChar h4 then
                parseStringBody fuel
                  (Char.ofNat
                    (((hexVal h1 * 16 + hexVal h2) * 16 + hexVal h3) * 16 + hexVal h4)
                    :: acc) rest3
              else none
            | _ => none
          else none
      else if c.toNat < 32 then none
      else parseStringBody fuel (c :: acc) rest

/-- Split off a maximal run of decimal digits. -/
def takeDigits : List Char → List Char × List Char
  | [] => ([], [])
  | c :: cs =>
    if c.isDigit then
      let p := takeDigits cs
      (c :: p.1, p.2)
    else ([], c :: cs)

/-- Numeric value of a digit run. -/
def digitsToNat (ds : List Char) : Nat :=
  List.foldl (fun acc c => acc * 10 + (c.toNat - 48)) 0 ds

/-- Parse an optional JSON fraction part, returning its lexeme. -/
def parseFrac : List Char → Option (List Char × List Char)
  | '.' :: more =>
    match takeDigits more with
    | ([], _) => none
    | (ds, rest) => some ('.' :: ds, rest)
  | cs => some ([], cs)

/-- Parse an optional JSON exponent part, returning its lexeme. -/
def parseExp : List Char → Option (List Char × List Char)
  | [] => some ([], [])
  | c :: more =>
    if c = 'e' || c = 'E' then
      let p : List Char × List Char :=
        match more with
        | '+' :: r => (['+'], r)
        | '-' :: r => (['-'], r)
        | r => ([], r)
      match takeDigits p.2 with
      | ([], _) => none
      | (ds, rest) => some (c :: (p.1 ++ ds), rest)
    else some ([], c :: more)

/-- Parse a JSON number (grammar `-? int frac? exp?`; leading zeros
rejected). -/
def parseNumber (cs : List Char) : Option (Json × List Char) :=
  let p : Bool × List Char :=
    match cs with
    | '-' :: rest => (true, rest)
    | _ => (false, cs)
  match takeDigits p.2 with
  | ([], _) => none
  | (d :: ds, rest) =>
    if d = '0' && !ds.isEmpty then none
    else
      match parseFrac rest with
      | none => none
      | some (fracCs, rest2) =>
        match parseExp rest2 with
        | none => none
        | some (expCs, rest3) =>
          let n : Int := Int.ofNat (digitsToNat (d :: ds))
          some (.num (if p.1 then -n else n) (String.mk (fracCs ++ expCs)), rest3)

mutual

/-- Parse one JSON value, skipping leading whitespace. -/
def parseValue : Nat → List Char → Option (Json × List Char)
  | 0, _ => none
  | fuel + 1, cs =>
    match skipWs cs with
    | [] => none
    | c :: rest =>
      if c = 'n' then
        match rest with
        | 'u' :: 'l' :: 'l' :: r => some (.null, r)
        | _ => none
      else if c = 't' then
        match rest with
        | 'r' :: 'u' :: 'e' :: r => some (.bool true, r)
        | _ => none
      else if c = 'f' then
        match rest with
        | 'a' :: 'l' :: 's' :: 'e' :: r => some (.bool false, r)
        | _ => none
      else if c = 'N' then
        match rest with
        | 'a' :: 'N' :: r => some (.nan, r)
        | _ => none
      else if c = 'I' then
        match rest with
        | 'n' :: 'f' :: 'i' :: 'n' :: 'i' :: 't' :: 'y' :: r => some (.inf false, r)
        | _ => none
      else if c = '-' then
        match rest with
        | 'I' :: 'n' :: 'f' :: 'i' :: 'n' :: 'i' :: 't' :: 'y' :: r =>
          some (.inf true, r)
        | _ => parseNumber (c :: rest)
      else if c = '"' then
        match parseStringBody (rest.length + 1) [] rest with
        | some (s, r) => some (.str s, r)
        | none => none
      else if c = '[' then
        match skipWs rest with
        | ']' :: r => some (.arr [], r)
        | r2 =>
          match parseElems fuel r2 with
          | some (es, r) => some (.arr es, r)
          | none => none
      else if c = lbrace then
        match skipWs rest with
        | [] => none
        | c2 :: r =>
          if c2 = rbrace then some (.obj [], r)
          else
            match parseMembers fuel (c2 :: r) with
            | some (ms, r2) => some (.obj ms, r2)
            | none => none
      else if c.isDigit then parseNumber (c :: rest)
      else none

/-- Parse the comma-separated elements of a non-empty JSON array, consuming
the closing bracket. -/
def parseElems : Nat → List Char → Option (List Json × List Char)
  | 0, _ => none
  | fuel + 1, cs =>
    match parseValue fuel cs with
    | none => none
    | some (v, rest) =>
      match skipWs rest with
      | ',' :: r =>
        match parseElems fuel r with
        | some (vs, r2) => some (v :: vs, r2)
        | none => none
      | ']' :: r => some ([v], r)
      | _ => none

/-- Parse the members of a non-empty JSON object, consuming the closing
brace. -/
def parseMembers : Nat → List Char → Option (List (String × Json) × List Char)
  | 0, _ => none
  | fuel + 1, cs =>
    match skipWs cs with
    | '"' :: rest =>
      match parseStringBody (rest.length + 1) [] rest with
      | none => none
      | some (k, r) =>
        match skipWs r with
        | ':' :: r2 =>
          match parseValue fuel r2 with
          | none => none
          | some (v, r3) =>
            match skipWs r3 with
            | [] => none
            | c :: r4 =>
              if c = ',' then
                match parseMembers fuel r4 with
                | some (ms, r5) => some ((k, v) :: ms, r5)
                | none => none
              else if c = rbrace then some ([(k, v)], r4)
              else none
        | _ => none
    | _ => none

end

/-- Model of `json.loads`: the whole input (up to trailing whitespace) must be one
JSON value. -/
def parseJson (s : String) : Option Json :=
  match parseValue (s.length + 1) s.data with
  | none => none
  | some (v, rest) => if (skipWs rest).isEmpty then some v else none

/-! ## Context normalization (tp_logger/models.py, LogEntry.validate_context)

The before-mode validator receives the raw Python value supplied for
`context`.  We classify such values as `None`, a string, a dict, or any other
JSON-representable object.  After the validator runs, pydantic coerces the
result to `Dict[str, Any]`, rejecting anything that is not a mapping with a
`ValidationError`. -/

/-- The raw Python value supplied for the `context` field. -/
inductive CtxInput where
  | pyNone
  | pyStr (s : String)
  | pyDict (m : List (String × Json))
  | pyOther (j : Json)

/-- Model of `LogEntry.validate_context`: `None` and `""` normalize to `{}`; other
strings are `json.loads`-decoded, falling back to `{"raw": v}` on
`JSONDecodeError`; every non-string value passes through unchanged. -/
def validate_context (v : CtxInput) : CtxInput :=
  match v with
  | .pyNone => .pyDict []
  | .pyStr s =>
    if s = "" then .pyDict []
    else
      match parseJson s with
      | some (.obj m) => .pyDict m
      | some j => .pyOther j
      | none => .pyDict [("raw", .str s)]
  | v => v

/-- The validator result followed by the pydantic coercion of the field to
`Dict[str, Any]`: only a mapping is accepted. -/
def coerceContext (v : CtxInput) : Except String (List (String × Json)) :=
  match validate_context v with
  | .pyDict m => .ok m
  | _ => .error "ValidationError: context must be a mapping"

/-! ## Record model (tp_logger/models.py, LogEntry)

`id`/`run_id` are `UUID` and `timestamp` is `datetime` in the source; both
serialize to canonical text (`str(uuid)`, `isoformat()`), and the round-trip
law of the spec compares them only as that text, so the embedding carries them
as their canonical text.  `level` is the five-value `Literal`. -/

/-- The five log levels of the `level` `Literal`. -/
inductive Level where
  | DEBUG
  | INFO
  | WARNING
  | ERROR
  | CRITICAL
deriving DecidableEq

/-- Text form of a level. -/
def Level.toText : Level → String
  | .DEBUG => "DEBUG"
  | .INFO => "INFO"
  | .WARNING => "WARNING"
  | .ERROR => "ERROR"
  | .CRITICAL => "CRITICAL"

/-- Acceptance by pydantic of a string for the `level` `Literal`. -/
def parseLevel (s : String) : Option Level :=
  if s = "DEBUG" then some .DEBUG
  else if s = "INFO" then some .INFO
  else if s = "WARNING" then some .WARNING
  else if s = "ERROR" then some .ERROR
  else if s = "CRITICAL" then some .CRITICAL
  else none

/-- A fully constructed `LogEntry` (tp_logger/models.py). -/
structure LogEntry where
  id : String
  project_name : String
  module_name : Option String
  function_name : Option String
  run_id : String
  timestamp : String
  level : Level
  action : Option String
  message : Option String
  success : Option Bool
  status_code : Option Int
  duration_ms : Option Int
  request_method : Option String
  context : List (String × Json)

/-- An optional string field as it appears in the dumped mapping. -/
def optStrToJson : Option String → Json
  | none => .null
  | some s => .str s

/-- An optional bool field as it appears in the dumped mapping. -/
def optBoolToJson : Option Bool → Json
  | none => .null
  | some b => .bool b

/-- An optional int field as it appears in the dumped mapping. -/
def optIntToJson : Option Int → Json
  | none => .null
  | some i => .num i ""

/-- Model of `LogEntry.model_dump()` with its `json_encoders`
(`datetime → isoformat`, `UUID → str`): the flat field mapping handed to the
DLT resource (`yield entry.model_dump()`, tp_logger/pipeline.py). -/
def LogEntry.dump (e : LogEntry) : List (String × Json) :=
  [("id", .str e.id),
   ("project_name", .str e.project_name),
   ("module_name", optStrToJson e.module_name),
   ("function_name", optStrToJson e.function_name),
   ("run_id", .str e.run_id),
   ("timestamp", .str e.timestamp),
   ("level", .str e.level.toText),
   ("action", optStrToJson e.action),
   ("message", optStrToJson e.message),
   ("success", optBoolToJson e.success),
   ("status_code", optIntToJson e.status_code),
   ("duration_ms", optIntToJson e.duration_ms),
   ("request_method", optStrToJson e.request_method),
   ("context", .obj e.context)]

/-- pydantic coercion of a required `str`-valued field (UUID/datetime/str in
canonical text); a missing required field is a `ValidationError`. -/
def coerceStr : Option Json → Except String String
  | some (.str s) => .ok s
  | _ => .error "ValidationError: string required"

/-- pydantic coercion of an `Optional[str]` field; absent fields take the
default `None`. -/
def coerceOptStr : Option Json → Except String (Option String)
  | some (.str s) => .ok (some s)
  | some .null => .ok none
  | none => .ok none
  | _ => .error "ValidationError: string or null required"

/-- pydantic coercion of an `Optional[bool]` field. -/
def coerceOptBool : Option Json → Except String (Option Bool)
  | some (.bool b) => .ok (some b)
  | some .null => .ok none
  | none => .ok none
  | _ => .error "ValidationError: bool or null required"

/-- pydantic coercion of an `Optional[int]` field: an integral JSON number is
accepted, a fractional one is not. -/
def coerceOptInt : Option Json → Except String (Option Int)
  | some (.num i r) =>
    if r = "" then .ok (some i) else .error "ValidationError: int required"
  | some .null => .ok none
  | none => .ok none
  | _ => .error "ValidationError: int or null required"

/-- pydantic coercion of the `level` `Literal`; absent takes the default
`"INFO"`. -/
def coerceLevel : Option Json → Except String Level
  | none => .ok .INFO
  | some (.str s) =>
    match parseLevel s with
    | some l => .ok l
    | none => .error "ValidationError: level must be one of the five literals"
  | _ => .error "ValidationError: level must be a string"

/-- Reflect a JSON value back into the raw-Python classification consumed by
`validate_context`. -/
def jsonToCtxInput : Json → CtxInput
  | .null => .pyNone
  | .str s => .pyStr s
  | .obj m => .pyDict m
  | j => .pyOther j

/-- The `context` field of an incoming mapping: absent uses the
`default_factory=dict`, present goes through `validate_context` and the
`Dict[str, Any]` coercion. -/
def coerceCtxField : Option Json → Except String (List (String × Json))
  | none => .ok []
  | some j => coerceContext (jsonToCtxInput j)

/-- Model of `LogEntry(**mapping)`: pydantic validation of a flat field mapping.
`freshId` and `nowTs` are the `default_factory` results (`uuid4()`,
`datetime.now()`) used when `id`/`timestamp` are absent; `run_id` and
`project_name` have no default and are required. -/
def fromFlat (freshId nowTs : String) (m : List (String × Json)) :
    Except String LogEntry := do
  let i ←
    match m.lookup "id" with
    | none => pure freshId
    | j => coerceStr j
  let pn ← coerceStr (m.lookup "project_name")
  let mn ← coerceOptStr (m.lookup "module_name")
  let fn ← coerceOptStr (m.lookup "function_name")
  let rid ← coerceStr (m.lookup "run_id")
  let ts ←
    match m.lookup "timestamp" with
    | none => pure nowTs
    | j => coerceStr j
  let lv ← coerceLevel (m.lookup "level")
  let ac ← coerceOptStr (m.lookup "action")
  let ms ← coerceOptStr (m.lookup "message")
  let su ← coerceOptBool (m.lookup "success")
  let sc ← coerceOptInt (m.lookup "status_code")
  let dm ← coerceOptInt (m.lookup "duration_ms")
  let rm ← coerceOptStr (m.lookup "request_method")
  let cx ← coerceCtxField (m.lookup "context")
  pure
    { id := i
      project_name := pn
      module_name := mn
      function_name := fn
      run_id := rid
      timestamp := ts
      level := lv
      action := ac
      message := ms
      success := su
      status_code := sc
      duration_ms := dm
      request_method := rm
      context := cx }

/-! ## Transfer Resource batching (dlt_logger/dlt/athena.py, job_logs_resource)

The resource executes one `SELECT * FROM dataset.job_logs` on its own
read-only connection and then loops `cursor.fetchmany(batch_size)`, yielding
each non-empty batch, until `fetchmany` returns no rows. -/

/-- The `fetchmany` loop: the batches yielded over a result set of `rows`.
`fetchmany(0)` returns no rows, which ends the loop immediately. -/
def fetchBatches {α : Type} (rows : List α) (b : Nat) : List (List α) :=
  match rows with
  | [] => []
  | r :: rs =>
    if hb : b = 0 then []
    else (r :: rs).take b :: fetchBatches ((r :: rs).drop b) b
termination_by rows.length
decreasing_by
  simp only [List.length_drop, List.length_cons]
  omega

/-- The arithmetic shape of the batch sizes: `min b n` rows, then the batches
of the remaining `n - b`. -/
def batchSizes (n b : Nat) : List Nat :=
  if hn : n = 0 then []
  else if hb : b = 0 then []
  else min b n :: batchSizes (n - b) b
termination_by n
decreasing_by omega

/-- The table loop of `upload_to_athena` (tp_logger/athena.py): every table of
the stored dataset is uploaded except those whose name starts with the
reserved internal prefix `_dlt` (`if table_name.startswith("_dlt"): continue`). -/
def uploadedTables (tables : List String) : List String :=
  tables.filter (fun t => !(t.startsWith "_dlt"))

/-! ## Transfer preconditions (dlt_logger/dlt/athena.py, transfer_to_athena;
tp_logger/athena.py, upload_to_athena)

`transfer_to_athena` returns `False` before creating any destination pipeline
when `athena_destination` is falsy, when any of the three Athena coordinates
is falsy, or when the source database file does not exist; only after all
three gates does it build the Athena pipeline and run it (exceptions there
are caught and turned into `False`).  `upload_to_athena` raises `ValueError`
for the first two gates and never checks file existence. -/

/-- Observable outcome of one `transfer_to_athena` call: the returned boolean
and whether a destination (Athena) pipeline was ever constructed/run.
`runSucceeds` injects whether the destination run raises. -/
structure TransferRun where
  result : Bool
  attemptedRemote : Bool
deriving DecidableEq

/-- All three Athena coordinates truthy (`all([...])` in the source). -/
def athenaCoordsPresent (c : DltLoggerConfig) : Bool :=
  truthyOptStr c.aws_region && truthyOptStr c.athena_database &&
    truthyOptStr c.athena_s3_staging_bucket

/-- Model of `transfer_to_athena` (dlt_logger/dlt/athena.py). -/
def transfer_to_athena (c : DltLoggerConfig) (dbExists : Bool)
    (runSucceeds : Bool) : TransferRun :=
  if !c.athena_destination then ⟨false, false⟩
  else if !athenaCoordsPresent c then ⟨false, false⟩
  else if !dbExists then ⟨false, false⟩
  else ⟨runSucceeds, true⟩

/-- Model of `upload_to_athena` (tp_logger/athena.py) up to the end of its validation
phase: `ValueError` for a falsy `athena_destination` or missing coordinates;
otherwise control enters the upload `try:` block.  The function never
consults the existence of the store file, so `dbExists` is deliberately
absent. -/
def upload_to_athena_validation (c : DltLoggerConfig) : Except String Unit :=
  if !c.athena_destination then
    .error "athena_destination must be True to upload to Athena"
  else if !athenaCoordsPresent c then
    .error "aws_region, athena_database, and athena_s3_staging_bucket are required for Athena upload"
  else .ok ()

/-! ## Destination write dispositions (the `@dlt.resource` declarations)

Each variant fixes its write disposition statically in the decorator; none of
them reads it from `LoggerConfig`. -/

/-- The statically declared write behaviour of a `@dlt.resource`. -/
structure ResourceDecl where
  resourceName : Option String
  write_disposition : String
  merge_key : Option String
  parallelized : Bool
  table_format : Option String
deriving DecidableEq

/-- Declaration of `job_logs_resource` in dlt_logger/dlt/athena.py. -/
def dltAthenaResourceDecl : ResourceDecl :=
  { resourceName := some "job_logs"
    write_disposition := "merge"
    merge_key := some "_dlt_id"
    parallelized := true
    table_format := some "iceberg" }

/-- Declaration of `job_logs_resource` in tp_logger/dlt/athena.py. -/
def tpAthenaResourceDecl : ResourceDecl :=
  { resourceName := some "job_logs"
    write_disposition := "append"
    merge_key := none
    parallelized := true
    table_format := none }

/-- Declaration of `job_logs` in tp_logger/dlt/pipeline.py. -/
def tpDltPipelineResourceDecl : ResourceDecl :=
  { resourceName := none
    write_disposition := "replace"
    merge_key := none
    parallelized := false
    table_format := none }

/-- Declaration of `job_logs` in tp_logger/pipeline.py (the storage-side resource). -/
def tpStorageResourceDecl : ResourceDecl :=
  { resourceName := none
    write_disposition := "append"
    merge_key := none
    parallelized := false
    table_format := none }

/-- The column name of the record-level unique identifier in the stored
schema (the `id` field of `LogEntry`). -/
def recordIdColumn : String := "id"

/-! ## The facade log path (tp_logger/logging/logger.py, TPLogger._log)

`_log` runs, in order: the loguru console call (no `try`), then
`_create_log_entry` — a pydantic construction, no `try` — then `_log_to_dlt`,
whose `self.pipeline.run(...)` is the only step wrapped in
`try/except Exception` (printing "DLT logging failed").  Failure of each step
is injected through `LogCallEnv`. -/

/-- Which steps of one `_log` call raise. -/
structure LogCallEnv where
  consoleRaises : Bool
  constructRaises : Bool
  pipelineRunRaises : Bool
deriving DecidableEq

/-- The console emission step (`getattr(self.loguru_logger, ...)(message)`),
executed only when `config.console_logging` is truthy, with no exception
handler around it. -/
def consoleEmit (consoleEnabled : Bool) (env : LogCallEnv) : Except String Unit :=
  if consoleEnabled && env.consoleRaises then .error "console emission raised"
  else .ok ()

/-- The `_create_log_entry` step (pydantic `LogEntry(...)`), with no exception
handler around it. -/
def createLogEntry (env : LogCallEnv) : Except String Unit :=
  if env.constructRaises then .error "ValidationError" else .ok ()

/-- Model of `_log_to_dlt`: `self.pipeline.run(...)` inside `try/except Exception`;
the returned list is what was printed.  No exception escapes. -/
def logToDlt (env : LogCallEnv) : List String :=
  if env.pipelineRunRaises then ["DLT logging failed"] else []

/-- Model of `TPLogger._log`: console, then record construction, then the guarded
storage write.  `.ok diags` = the call returned normally printing `diags`;
`.error e` = the exception `e` escaped to the caller. -/
def facadeLog (consoleEnabled : Bool) (env : LogCallEnv) :
    Except String (List String) :=
  match consoleEmit consoleEnabled env with
  | .error e => .error e
  | .ok _ =>
    match createLogEntry env with
    | .error e => .error e
    | .ok _ => .ok (logToDlt env)

/-- Model of `TPLogger.info` (and `debug`/`warning`/`error`/`critical`/`log_action`/
`log_exception`): pure delegation to `_log`. -/
def facadeInfo (consoleEnabled : Bool) (env : LogCallEnv) :
    Except String (List String) :=
  facadeLog consoleEnabled env

/-! ## Timestamp default (tp_logger/models.py line 19 and
dlt_logger/logging/models.py line 18)

`timestamp: datetime = Field(default_factory=datetime.now)`.  `datetime.now()`
called without a `tz` argument returns a naive datetime: its `tzinfo` is
`None`. -/

/-- A Python `datetime`: the wall-clock reading it denotes plus its `tzinfo`
(`none` = naive). -/
structure PyDatetime where
  reading : Nat
  tzinfo : Option Int
deriving DecidableEq

/-- Model of `datetime.now()` (no `tz` argument) at clock reading `t`. -/
def datetimeNow (t : Nat) : PyDatetime := ⟨t, none⟩

/-- A datetime is timezone-aware iff it carries a `tzinfo`. -/
def PyDatetime.isAware (d : PyDatetime) : Bool := d.tzinfo.isSome

/-- The value the `timestamp` field receives at construction: the supplied
value, or `datetime.now()` via the `default_factory`. -/
def resolveTimestampField (t : Nat) (supplied : Option PyDatetime) : PyDatetime :=
  match supplied with
  | some d => d
  | none => datetimeNow t

/-- A representative dlt_logger configuration with the Athena destination
disabled. -/
def sampleDltConfig : DltLoggerConfig :=
  { project_name := "demo_app"
    log_level := "INFO"
    pipeline_name := "demo_pipeline"
    dataset_name := "demo_logs"
    table_name := "job_logs"
    db_path := "./logs/app.duckdb"
    console_logging := true
    athena_destination := false
    aws_region := none
    athena_database := none
    athena_s3_staging_bucket := none }

/-- Variant of `sampleDltConfig` with the Athena destination enabled and all three
coordinates present. -/
def fullAthenaConfig : DltLoggerConfig :=
  { sampleDltConfig with
      athena_destination := true
      aws_region := some "eu-west-1"
      athena_database := some "logs_db"
      athena_s3_staging_bucket := some "s3://staging-bucket" }

/-- Whether a call of `upload_to_athena` gets past validation into the upload
phase (the `try:` block that builds the source and destination pipelines). -/
def upload_to_athena_reaches_upload_phase (c : DltLoggerConfig) : Bool :=
  match upload_to_athena_validation c with
  | .ok _ => true
  | .error _ => false

/-! ## Theorems -/

/-- Helper: when every open attempt reports the store as locked, the retry
loop never produces a handle. -/
theorem connectFrom_locked_conn_none (attempts : Nat → ConnAttempt)
    (h : ∀ n, attempts n = .locked) (maxRetries : Nat) :
    ∀ fuel attempt waited diags,
      (connectFrom attempts maxRetries fuel attempt waited diags).conn = none := by
  intro fuel
  induction fuel with
  | zero =>
    intro attempt waited diags
    rfl
  | succ fuel ih =>
    intro attempt waited diags
    simp only [connectFrom, h attempt]
    split
    · exact ih _ _ _
    · rfl

/-- C2: with the store locked on every attempt, `get_db_connection` exhausts
its retries and returns `None` (no exception escapes: the whole open is inside
`try/except`), and a subsequent `_log_to_db` on the logger whose connection is
`None` returns immediately without raising and without printing a failure. -/
theorem C2_locked_store_degrades (attempts : Nat → ConnAttempt)
    (maxRetries : Nat) (h : ∀ n, attempts n = .locked) :
    (get_db_connection attempts maxRetries).conn = none ∧
    ∀ insertRaises,
      logToDb (get_db_connection attempts maxRetries).conn insertRaises = [] := by
  have hnone : (get_db_connection attempts maxRetries).conn = none :=
    connectFrom_locked_conn_none attempts h maxRetries maxRetries 0 0 []
  refine ⟨hnone, ?_⟩
  intro insertRaises
  rw [hnone]
  rfl

/-- C2 witness: three lock failures in a row at the default retry count. -/
theorem C2_locked_store_degrades_witness :
    (get_db_connection (fun _ => .locked) 3).conn = none ∧
    ∀ insertRaises,
      logToDb (get_db_connection (fun _ => .locked) 3).conn insertRaises = [] :=
  C2_locked_store_degrades (fun _ => .locked) 3 (fun _ => rfl)

/-- C3: on lock failures the loop waits `2 ^ attempt` seconds before retry
`attempt + 1` and announces each delay; locked on attempts 0 and 1 and
successful on attempt 2, it returns the handle obtained on attempt 2 after
waiting exactly `1 + 2 = 3` seconds with diagnostics `[1, 2]`; a failure not
classified as locked fails immediately, with no wait and no retry diagnostic;
the default `max_retries` is 3. -/
theorem C3_backoff_schedule (a b : Nat → ConnAttempt)
    (h0 : a 0 = .locked) (h1 : a 1 = .locked) (h2 : a 2 = .success)
    (hb : b 0 = .otherFail) :
    get_db_connection a 3 = ⟨some 2, 3, [1, 2]⟩ ∧
    get_db_connection b 3 = ⟨none, 0, []⟩ ∧
    defaultMaxRetries = 3 := by
  refine ⟨?_, ?_, rfl⟩
  · simp [get_db_connection, connectFrom, h0, h1, h2]
  · simp [get_db_connection, connectFrom, hb]

/-- C3 witness: the store locked on the first two attempts and free on the
third, and a non-lock failure on the first attempt. -/
theorem C3_backoff_schedule_witness :
    get_db_connection (fun n => if n < 2 then .locked else .success) 3 =
      ⟨some 2, 3, [1, 2]⟩ ∧
    get_db_connection (fun _ => .otherFail) 3 = ⟨none, 0, []⟩ ∧
    defaultMaxRetries = 3 :=
  C3_backoff_schedule (fun n => if n < 2 then .locked else .success)
    (fun _ => .otherFail) rfl rfl rfl rfl

/-- C10: before any configuration is set, the dlt_logger `get_config` raises
`ValueError` naming the required setup parameters, so constructing a
`TPLogger` (which reads config and pipeline) or the pipeline singleton fails
with the same error, whatever the cached pipeline state; the tp_logger
`get_config` instead lazily creates and installs the defaulted
`LoggerConfig()`. -/
theorem C10_config_initialization_gate :
    dltGetConfig none = .error dltConfigNotInitializedMsg ∧
    (∀ cached createFails,
      dltTPLoggerInit none cached createFails =
        .error dltConfigNotInitializedMsg) ∧
    (∀ cached createFails,
      dltGetPipeline none cached createFails =
        .error dltConfigNotInitializedMsg) ∧
    tpGetConfig none = (defaultTpLoggerConfig, some defaultTpLoggerConfig) := by
  refine ⟨rfl, ?_, ?_, rfl⟩
  · intro cached createFails
    cases cached <;> rfl
  · intro cached createFails
    cases cached <;> rfl

/-- C9 counterexample: the timestamp produced by the `default_factory`
(`datetime.now()`) at any concrete clock reading carries no `tzinfo`, so it is
not timezone-aware as the claim states. -/
theorem C9_counterexample :
    (resolveTimestampField 0 none).isAware = false := by
  decide

/-- C9 (amended): a `LogEntry` constructed without an explicit timestamp gets
`datetime.now()` — the construction-time clock reading — but the result is
timezone-NAIVE (`tzinfo` is `None`), not timezone-aware. -/
theorem C9_amended_default_is_naive_now (t : Nat) :
    resolveTimestampField t none = datetimeNow t ∧
    (resolveTimestampField t none).reading = t ∧
    (resolveTimestampField t none).isAware = false :=
  ⟨rfl, rfl, rfl⟩

/-- C1 counterexample: a record-construction failure (pydantic
`ValidationError` inside `_create_log_entry`, which `_log` does not guard)
escapes `TPLogger._log` to the caller, and `get_pipeline` re-raises a pipeline
creation failure (`except ... raise`) even with a configuration installed. -/
theorem C1_counterexample :
    facadeLog true
        { consoleRaises := false, constructRaises := true,
          pipelineRunRaises := false } =
      .error "ValidationError" ∧
    dltGetPipeline (some sampleDltConfig) none true =
      .error "Failed to create pipeline" :=
  ⟨rfl, rfl⟩

/-- C1 (amended): only the storage write is guarded: when neither the console
emission nor the record construction raises, `_log` always returns normally —
a `pipeline.run` failure is caught and reported as the "DLT logging failed"
diagnostic instead of propagating; but a construction or console failure does
propagate, as the counterexample shows. -/
theorem C1_amended_storage_failures_swallowed (consoleEnabled : Bool)
    (env : LogCallEnv) (hc : env.consoleRaises = false)
    (hv : env.constructRaises = false) :
    facadeLog consoleEnabled env = .ok (logToDlt env) ∧
    (env.pipelineRunRaises = true → logToDlt env = ["DLT logging failed"]) := by
  constructor
  · simp [facadeLog, consoleEmit, createLogEntry, hc, hv]
  · intro hr
    simp [logToDlt, hr]

/-- C1 witness: console enabled, a healthy record, and a storage write that
raises: the call returns normally, printing the failure diagnostic. -/
theorem C1_amended_storage_failures_swallowed_witness :
    facadeLog true
        { consoleRaises := false, constructRaises := false,
          pipelineRunRaises := true } =
      .ok (logToDlt
        { consoleRaises := false, constructRaises := false,
          pipelineRunRaises := true }) ∧
    (({ consoleRaises := false, constructRaises := false,
        pipelineRunRaises := true } : LogCallEnv).pipelineRunRaises = true →
      logToDlt
        { consoleRaises := false, constructRaises := false,
          pipelineRunRaises := true } = ["DLT logging failed"]) :=
  C1_amended_storage_failures_swallowed true
    { consoleRaises := false, constructRaises := false,
      pipelineRunRaises := true } rfl rfl

/-- C7 counterexample: the dlt_logger transfer resource declares
`write_disposition="merge"` but its merge key is the pipeline-internal
`_dlt_id`, not the record-level `id` column, and a third disposition
(`replace`, tp_logger/dlt/pipeline.py) exists besides append and merge — so
the write semantics are neither merge-keyed-by-the-record-id nor an
explicit two-way configuration choice. -/
theorem C7_counterexample :
    dltAthenaResourceDecl.write_disposition = "merge" ∧
    dltAthenaResourceDecl.merge_key = some "_dlt_id" ∧
    dltAthenaResourceDecl.merge_key ≠ some recordIdColumn ∧
    tpDltPipelineResourceDecl.write_disposition = "replace" ∧
    ¬(tpDltPipelineResourceDecl.write_disposition = "append" ∨
      tpDltPipelineResourceDecl.write_disposition = "merge") := by
  refine ⟨rfl, rfl, ?_, rfl, ?_⟩ <;> decide

/-- C7 (amended): each variant fixes its destination write disposition
statically in its `@dlt.resource` declaration — merge keyed by the internal
`_dlt_id` in dlt_logger/dlt/athena.py, append in tp_logger/dlt/athena.py and
tp_logger/pipeline.py, replace in tp_logger/dlt/pipeline.py; none of these is
selected by the `LoggerConfig`. -/
theorem C7_amended_static_dispositions :
    dltAthenaResourceDecl.write_disposition = "merge" ∧
    dltAthenaResourceDecl.merge_key = some "_dlt_id" ∧
    tpAthenaResourceDecl.write_disposition = "append" ∧
    tpAthenaResourceDecl.merge_key = none ∧
    tpStorageResourceDecl.write_disposition = "append" ∧
    tpDltPipelineResourceDecl.write_disposition = "replace" :=
  ⟨rfl, rfl, rfl, rfl, rfl, rfl⟩

/-- C6 counterexample: with the Athena destination enabled and all three
coordinates present but the embedded-store file absent, `upload_to_athena`
raises no `ValueError`: its validation phase — which never consults
`os.path.exists` (its definition takes no file-existence input at all) —
accepts, and control enters the upload phase, contrary to the claim that the
missing store file yields a failure before any further work. -/
theorem C6_counterexample :
    upload_to_athena_validation fullAthenaConfig = .ok () ∧
    upload_to_athena_reaches_upload_phase fullAthenaConfig = true :=
  ⟨rfl, rfl⟩

/-- C6 (amended): `transfer_to_athena` returns `False` without constructing
any destination pipeline whenever the destination is disabled, a coordinate is
missing, or the store file does not exist; `upload_to_athena` raises
`ValueError` for the first two conditions only — it performs no store-file
check. -/
theorem C6_amended_precondition_gates :
    (∀ (c : DltLoggerConfig) (dbExists runSucceeds : Bool),
      c.athena_destination = false ∨ athenaCoordsPresent c = false ∨
        dbExists = false →
      transfer_to_athena c dbExists runSucceeds = ⟨false, false⟩) ∧
    (∀ c : DltLoggerConfig, c.athena_destination = false →
      upload_to_athena_validation c =
        .error "athena_destination must be True to upload to Athena") ∧
    (∀ c : DltLoggerConfig, c.athena_destination = true →
      athenaCoordsPresent c = false →
      upload_to_athena_validation c =
        .error "aws_region, athena_database, and athena_s3_staging_bucket are required for Athena upload") := by
  refine ⟨?_, ?_, ?_⟩
  · intro c dbExists runSucceeds h
    rcases h with h | h | h <;> simp [transfer_to_athena, h]
  · intro c h
    simp [upload_to_athena_validation, h]
  · intro c h hcoords
    simp [upload_to_athena_validation, h, hcoords]

/-- C6 witness: a disabled destination (both variants) and a present
configuration with an absent store file (bool variant). -/
theorem C6_amended_precondition_gates_witness :
    transfer_to_athena sampleDltConfig true true = ⟨false, false⟩ ∧
    transfer_to_athena fullAthenaConfig false true = ⟨false, false⟩ ∧
    upload_to_athena_validation sampleDltConfig =
      .error "athena_destination must be True to upload to Athena" :=
  ⟨C6_amended_precondition_gates.1 sampleDltConfig true true (Or.inl rfl),
   C6_amended_precondition_gates.1 fullAthenaConfig false true
     (Or.inr (Or.inr rfl)),
   C6_amended_precondition_gates.2.1 sampleDltConfig rfl⟩

/-- C4: the `context` normalization of `LogEntry`: `None` and `""` become the
empty mapping; a string that is not syntactically valid JSON becomes
`{"raw": <the original string>}`; and a string that decodes to a non-mapping
JSON value is rejected by the `Dict[str, Any]` coercion, so a successfully
constructed record never holds a bare string (its context type is always a
mapping). -/
theorem C4_context_normalization :
    coerceContext .pyNone = .ok [] ∧
    coerceContext (.pyStr "") = .ok [] ∧
    (∀ s, s ≠ "" → parseJson s = none →
      coerceContext (.pyStr s) = .ok [("raw", .str s)]) ∧
    (∀ s j, s ≠ "" → parseJson s = some j → (∀ m, j ≠ .obj m) →
      (coerceContext (.pyStr s)).isOk = false) := by
  refine ⟨rfl, rfl, ?_, ?_⟩
  · intro s hs hp
    simp [coerceContext, validate_context, hs, hp]
  · intro s j hs hp hobj
    cases j <;>
      simp [coerceContext, validate_context, hs, hp, Except.isOk, Except.toBool]
    exact absurd rfl (hobj _)

/-- C4 witness: an invalid JSON string is wrapped as `raw`, and a valid JSON
array string is rejected rather than stored. -/
theorem C4_context_normalization_witness :
    coerceContext (.pyStr "not valid json") =
      .ok [("raw", .str "not valid json")] ∧
    (coerceContext (.pyStr "[1, 2]")).isOk = false :=
  ⟨C4_context_normalization.2.2.1 "not valid json" (by decide) rfl,
   C4_context_normalization.2.2.2 "[1, 2]" (.arr [.num 1 "", .num 2 ""])
     (by decide) rfl (fun m h => Json.noConfusion h)⟩

/-- Helper: one unfolding of the `fetchmany` loop on a non-empty result set
and a positive batch size. -/
theorem fetchBatches_cons {α : Type} (r : α) (rs : List α) (b : Nat)
    (hb : b ≠ 0) :
    fetchBatches (r :: rs) b =
      (r :: rs).take b :: fetchBatches ((r :: rs).drop b) b := by
  rw [fetchBatches]
  simp [hb]

/-- Helper: the ceiling-division recurrence matched by one loop iteration. -/
theorem ceil_div_step (b : Nat) (hb : 0 < b) (n : Nat) (hn : 1 ≤ n) :
    (n + b - 1) / b = ((n - b) + b - 1) / b + 1 := by
  have hid : ∀ m, 1 ≤ m → (m + b - 1) / b = (m - 1) / b + 1 := by
    intro m hm
    have he : m + b - 1 = (m - 1) + b := by omega
    rw [he, Nat.add_div_right _ hb]
  rcases Nat.lt_or_ge b n with hlt | hge
  · have e1 : (n - b) + b - 1 = n - 1 := by omega
    rw [e1]
    exact hid n hn
  · have e1 : n - b = 0 := by omega
    rw [e1, hid n hn, Nat.div_eq_of_lt (show n - 1 < b by omega),
      Nat.div_eq_of_lt (show 0 + b - 1 < b by omega)]

/-- Helper: the batches concatenate back to the full result set (every row is
streamed exactly once, in order). -/
theorem fetchBatches_flatten {α : Type} (b : Nat) (hb : 0 < b) :
    ∀ (n : Nat) (rows : List α), rows.length ≤ n →
      (fetchBatches rows b).flatten = rows := by
  intro n
  induction n with
  | zero =>
    intro rows hr
    have h0 : rows = [] := List.length_eq_zero.mp (Nat.le_zero.mp hr)
    subst h0
    simp [fetchBatches]
  | succ n ih =>
    intro rows hr
    cases rows with
    | nil => simp [fetchBatches]
    | cons r rs =>
      rw [fetchBatches_cons r rs b (Nat.pos_iff_ne_zero.mp hb),
        List.flatten_cons,
        ih ((r :: rs).drop b)
          (by
            rw [List.length_drop]
            simp only [List.length_cons] at hr ⊢
            omega)]
      exact List.take_append_drop b (r :: rs)

/-- Helper: the number of batches is the ceiling of rows over batch size. -/
theorem fetchBatches_length {α : Type} (b : Nat) (hb : 0 < b) :
    ∀ (n : Nat) (rows : List α), rows.length ≤ n →
      (fetchBatches rows b).length = (rows.length + b - 1) / b := by
  intro n
  induction n with
  | zero =>
    intro rows hr
    have h0 : rows = [] := List.length_eq_zero.mp (Nat.le_zero.mp hr)
    subst h0
    show (fetchBatches ([] : List α) b).length = (0 + b - 1) / b
    rw [show fetchBatches ([] : List α) b = [] from by simp [fetchBatches]]
    exact (Nat.div_eq_of_lt (by omega)).symm
  | succ n ih =>
    intro rows hr
    cases rows with
    | nil =>
      show (fetchBatches ([] : List α) b).length = (0 + b - 1) / b
      rw [show fetchBatches ([] : List α) b = [] from by simp [fetchBatches]]
      exact (Nat.div_eq_of_lt (by omega)).symm
    | cons r rs =>
      rw [fetchBatches_cons r rs b (Nat.pos_iff_ne_zero.mp hb),
        List.length_cons,
        ih ((r :: rs).drop b)
          (by
            rw [List.length_drop]
            simp only [List.length_cons] at hr ⊢
            omega),
        List.length_drop]
      exact (ceil_div_step b hb (r :: rs).length (by simp)).symm

/-- Helper: `batchSizes` at zero rows. -/
theorem batchSizes_nil (b : Nat) : batchSizes 0 b = [] := by
  rw [batchSizes]
  simp

/-- Helper: one unfolding of `batchSizes`. -/
theorem batchSizes_cons (n b : Nat) (hn : n ≠ 0) (hb : b ≠ 0) :
    batchSizes n b = min b n :: batchSizes (n - b) b := by
  rw [batchSizes]
  simp [hn, hb]

/-- Helper: the sizes of the produced batches follow `batchSizes`. -/
theorem fetchBatches_map_length {α : Type} (b : Nat) (hb : 0 < b) :
    ∀ (n : Nat) (rows : List α), rows.length ≤ n →
      (fetchBatches rows b).map List.length = batchSizes rows.length b := by
  intro n
  induction n with
  | zero =>
    intro rows hr
    have h0 : rows = [] := List.length_eq_zero.mp (Nat.le_zero.mp hr)
    subst h0
    rw [show fetchBatches ([] : List α) b = [] from by simp [fetchBatches]]
    simp [batchSizes_nil]
  | succ n ih =>
    intro rows hr
    cases rows with
    | nil =>
      rw [show fetchBatches ([] : List α) b = [] from by simp [fetchBatches]]
      simp [batchSizes_nil]
    | cons r rs =>
      rw [fetchBatches_cons r rs b (Nat.pos_iff_ne_zero.mp hb),
        List.map_cons,
        ih ((r :: rs).drop b)
          (by
            rw [List.length_drop]
            simp only [List.length_cons] at hr ⊢
            omega),
        List.length_take, List.length_drop,
        batchSizes_cons (r :: rs).length b (by simp) (Nat.pos_iff_ne_zero.mp hb)]

/-- Helper: the concrete batch-size schedule of the example in the spec. -/
theorem batchSizes_25000 : batchSizes 25000 10000 = [10000, 10000, 5000] := by
  rw [batchSizes_cons 25000 10000 (by norm_num) (by norm_num),
    show (25000 - 10000 : Nat) = 15000 from by norm_num,
    batchSizes_cons 15000 10000 (by norm_num) (by norm_num),
    show (15000 - 10000 : Nat) = 5000 from by norm_num,
    batchSizes_cons 5000 10000 (by norm_num) (by norm_num),
    show (5000 - 10000 : Nat) = 0 from by norm_num,
    batchSizes_nil]
  norm_num

/-- C5: the `fetchmany` loop of the transfer resource streams a stored table of
`N` rows with batch size `B > 0` in exactly `ceil(N/B)` batches whose
concatenation is the full row list in order (so each batch is bounded by `B`
and no more than one pass over the table happens); for `N = 25000` and
`B = 10000` the batch sizes are exactly `[10000, 10000, 5000]`; and the table
loop of the upload path never uploads a table whose name starts with the
reserved `_dlt` prefix. -/
theorem C5_transfer_batching {α : Type} (rows : List α) (b : Nat) (hb : 0 < b) :
    (fetchBatches rows b).length = (rows.length + b - 1) / b ∧
    (fetchBatches rows b).flatten = rows ∧
    (rows.length = 25000 →
      (fetchBatches rows 10000).map List.length = [10000, 10000, 5000]) ∧
    ∀ (tables : List String) (t : String),
      t ∈ uploadedTables tables → t.startsWith "_dlt" = false := by
  refine ⟨fetchBatches_length b hb rows.length rows le_rfl,
    fetchBatches_flatten b hb rows.length rows le_rfl, ?_, ?_⟩
  · intro h25
    rw [fetchBatches_map_length 10000 (by norm_num) rows.length rows le_rfl,
      h25, batchSizes_25000]
  · intro tables t ht
    rcases List.mem_filter.mp ht with ⟨-, hp⟩
    simpa using hp

/-- C5 witness: five rows in batches of two. -/
theorem C5_transfer_batching_witness :
    0 < 2 ∧
    ((fetchBatches ([10, 20, 30, 40, 50] : List Nat) 2).length =
        (([10, 20, 30, 40, 50] : List Nat).length + 2 - 1) / 2 ∧
      (fetchBatches ([10, 20, 30, 40, 50] : List Nat) 2).flatten =
        [10, 20, 30, 40, 50] ∧
      (([10, 20, 30, 40, 50] : List Nat).length = 25000 →
        (fetchBatches ([10, 20, 30, 40, 50] : List Nat) 10000).map List.length =
          [10000, 10000, 5000]) ∧
      ∀ (tables : List String) (t : String),
        t ∈ uploadedTables tables → t.startsWith "_dlt" = false) :=
  ⟨by norm_num, C5_transfer_batching [10, 20, 30, 40, 50] 2 (by norm_num)⟩

/-- Helper: a dumped optional string field re-validates to itself. -/
theorem coerceOptStr_rt (o : Option String) :
    coerceOptStr (some (optStrToJson o)) = .ok o := by
  cases o <;> rfl

/-- Helper: a dumped optional bool field re-validates to itself. -/
theorem coerceOptBool_rt (o : Option Bool) :
    coerceOptBool (some (optBoolToJson o)) = .ok o := by
  cases o <;> rfl

/-- Helper: a dumped optional int field re-validates to itself. -/
theorem coerceOptInt_rt (o : Option Int) :
    coerceOptInt (some (optIntToJson o)) = .ok o := by
  cases o <;> rfl

/-- Helper: a dumped level re-validates to itself. -/
theorem coerceLevel_rt (l : Level) :
    coerceLevel (some (.str l.toText)) = .ok l := by
  cases l <;> rfl

/-- Helper: each field of the flat dump is found under its column name. -/
theorem dump_lookup_id (e : LogEntry) :
    e.dump.lookup "id" = some (.str e.id) := rfl

/-- Helper: `project_name` in the flat dump. -/
theorem dump_lookup_project_name (e : LogEntry) :
    e.dump.lookup "project_name" = some (.str e.project_name) := rfl

/-- Helper: `module_name` in the flat dump. -/
theorem dump_lookup_module_name (e : LogEntry) :
    e.dump.lookup "module_name" = some (optStrToJson e.module_name) := rfl

/-- Helper: `function_name` in the flat dump. -/
theorem dump_lookup_function_name (e : LogEntry) :
    e.dump.lookup "function_name" = some (optStrToJson e.function_name) := rfl

/-- Helper: `run_id` in the flat dump. -/
theorem dump_lookup_run_id (e : LogEntry) :
    e.dump.lookup "run_id" = some (.str e.run_id) := rfl

/-- Helper: `timestamp` in the flat dump. -/
theorem dump_lookup_timestamp (e : LogEntry) :
    e.dump.lookup "timestamp" = some (.str e.timestamp) := rfl

/-- Helper: `level` in the flat dump. -/
theorem dump_lookup_level (e : LogEntry) :
    e.dump.lookup "level" = some (.str e.level.toText) := rfl

/-- Helper: `action` in the flat dump. -/
theorem dump_lookup_action (e : LogEntry) :
    e.dump.lookup "action" = some (optStrToJson e.action) := rfl

/-- Helper: `message` in the flat dump. -/
theorem dump_lookup_message (e : LogEntry) :
    e.dump.lookup "message" = some (optStrToJson e.message) := rfl

/-- Helper: `success` in the flat dump. -/
theorem dump_lookup_success (e : LogEntry) :
    e.dump.lookup "success" = some (optBoolToJson e.success) := rfl

/-- Helper: `status_code` in the flat dump. -/
theorem dump_lookup_status_code (e : LogEntry) :
    e.dump.lookup "status_code" = some (optIntToJson e.status_code) := rfl

/-- Helper: `duration_ms` in the flat dump. -/
theorem dump_lookup_duration_ms (e : LogEntry) :
    e.dump.lookup "duration_ms" = some (optIntToJson e.duration_ms) := rfl

/-- Helper: `request_method` in the flat dump. -/
theorem dump_lookup_request_method (e : LogEntry) :
    e.dump.lookup "request_method" = some (optStrToJson e.request_method) := rfl

/-- Helper: `context` in the flat dump. -/
theorem dump_lookup_context (e : LogEntry) :
    e.dump.lookup "context" = some (.obj e.context) := rfl

/-- Helper: `Except` bind on a success. -/
theorem except_bind_ok {ε α β : Type} (a : α) (f : α → Except ε β) :
    (Except.ok a : Except ε α) >>= f = f a := rfl

/-- C8: serializing a constructed `LogEntry` to its flat mapping
(`model_dump` with the canonical text encoders for `UUID` and `datetime`) and
re-validating that mapping through `LogEntry(**mapping)` yields the identical
record, for every record and independently of the fresh-id / now defaults;
timestamps and identifiers round-trip as their canonical text, which is
exactly how the embedding carries them. -/
theorem C8_serialization_roundtrip (freshId nowTs : String) (e : LogEntry) :
    fromFlat freshId nowTs e.dump = .ok e := by
  simp only [fromFlat, dump_lookup_id, dump_lookup_project_name,
    dump_lookup_module_name, dump_lookup_function_name, dump_lookup_run_id,
    dump_lookup_timestamp, dump_lookup_level, dump_lookup_action,
    dump_lookup_message, dump_lookup_success, dump_lookup_status_code,
    dump_lookup_duration_ms, dump_lookup_request_method, dump_lookup_context,
    coerceOptStr_rt, coerceOptBool_rt, coerceOptInt_rt, coerceLevel_rt,
    coerceStr, coerceCtxField, jsonToCtxInput, coerceContext,
    validate_context, except_bind_ok]
  rfl

end DltLogger
